import Mathlib

/-!
Shallow embedding of the open-machina interruption-arbitration core
(`packages/open-machina-plugin/src/index.ts` and the shared `autonomy`
module).  TypeScript functions become Lean functions; JavaScript numbers
are modelled as exact rationals; host-runtime facilities (`JSON.parse`,
string methods, the auth store file, the provider catalog, the session
control surface) are modelled explicitly where the embedded code uses
them.  Theorems at the end check the specification's claims against
these definitions.
-/

set_option maxRecDepth 4000

/-! ## Enumerations of the decision contract (autonomy.ts) -/

/-- `OrchestrationAction`: the four enumerated actions.  The source calls
the fourth value `"continue"`; `continue` is a Lean keyword, so the
constructor is named `cont`. -/
inductive OrchestrationAction where
  | abort
  | defer
  | parallel
  | cont
deriving DecidableEq

/-- The four priority levels of a decision and of a work item. -/
inductive MachinaPriority where
  | critical
  | high
  | medium
  | low
deriving DecidableEq

/-- Status of a tracked work item. -/
inductive WorkStatus where
  | running
  | queued
  | blocked
deriving DecidableEq

/-- Lane of a parallel plan. -/
inductive Lane where
  | foreground
  | background
deriving DecidableEq

/-- `parallelPlan` field of a decision.  `maxConcurrency` is an integer
after the source's `Math.max(1, Math.min(32, Math.floor(...)))`. -/
structure ParallelPlan where
  lane : Lane
  maxConcurrency : Int
deriving DecidableEq

/-- `OrchestrationDecision` from autonomy.ts.  `confidence` is a
JavaScript number, modelled as an exact rational. -/
structure OrchestrationDecision where
  action : OrchestrationAction
  confidence : Rat
  reason : String
  priority : MachinaPriority
  deferUntil : Option String
  parallelPlan : Option ParallelPlan
deriving DecidableEq

/-- `ActiveWorkItem` from autonomy.ts. -/
structure ActiveWorkItem where
  id : String
  title : String
  status : WorkStatus
  priority : MachinaPriority
  startedAt : String
deriving DecidableEq

/-- `SessionRuntimeState`: the per-session deferred/parallel queues. -/
structure SessionRuntimeState where
  deferred : List ActiveWorkItem
  parallel : List ActiveWorkItem
deriving DecidableEq

/-! ## JavaScript string helpers

The embedded TypeScript uses host string methods (`trim`, `slice`,
`split`, `includes`, `toLowerCase`, `join`).  They are modelled here on
the character list underlying a `String`, matching the JavaScript
behaviour on the ASCII inputs the plugin handles. -/

/-- Characters treated as whitespace by `String.prototype.trim`
(ASCII portion). -/
def jsIsWs (c : Char) : Bool :=
  c = ' ' ∨ c = '\n' ∨ c = '\t' ∨ c = '\r'

/-- Model of `s.trim()`. -/
def jsTrim (s : String) : String :=
  String.mk (((s.data.dropWhile jsIsWs).reverse.dropWhile jsIsWs).reverse)

/-- Model of `s.slice(0, n)`. -/
def jsSlice (s : String) (n : Nat) : String :=
  String.mk (s.data.take n)

/-- Model of `s.toLowerCase()` (ASCII portion). -/
def jsToLower (s : String) : String :=
  String.mk (s.data.map Char.toLower)

/-- Model of `s.includes(pattern)`. -/
def jsIncludes (s pattern : String) : Bool :=
  decide (pattern.data <:+: s.data)

/-- Model of `list.join(sep)`. -/
def jsJoin (sep : String) : List String → String
  | [] => ""
  | [x] => x
  | x :: rest => x ++ sep ++ jsJoin sep rest

/-- Helper for `jsSplit`: cut a character list at each occurrence of
`sep`, accumulating the current piece in reverse. -/
def jsSplitGo (sep : Char) (acc : List Char) : List Char → List String
  | [] => [String.mk acc.reverse]
  | c :: rest =>
      if c = sep then String.mk acc.reverse :: jsSplitGo sep [] rest
      else jsSplitGo sep (c :: acc) rest

/-- Model of `s.split(sep)` for a one-character separator. -/
def jsSplit (s : String) (sep : Char) : List String :=
  jsSplitGo sep [] s.data

/-! ## JSON values and a strict parser (model of `JSON.parse`)

The judge replies with text which autonomy.ts hands to the host
`JSON.parse`.  `Json` is the resulting value universe; `jsonParse` is a
strict recursive-descent parser over the raw characters, fuelled by the
input length.  Duplicate keys keep the last occurrence, as in
JavaScript. -/

/-- Parsed JSON values.  Numbers are exact rationals. -/
inductive Json where
  | null
  | bool (b : Bool)
  | num (q : Rat)
  | str (s : String)
  | arr (items : List Json)
  | obj (fields : List (String × Json))

/-- Property lookup on a parsed value: `v[k]` is `undefined` (here
`none`) unless `v` is an object with field `k`; the last occurrence of a
duplicated key wins, as `JSON.parse` keeps the last one. -/
def jget : Json → String → Option Json
  | Json.obj fields, k =>
      match fields.reverse.find? (fun f => f.fst = k) with
      | some f => some f.snd
      | none => none
  | _, _ => none

/-- Model of the source's `isRecord`: `typeof v === "object" && v !== null`.
Arrays are objects in JavaScript. -/
def isRecordJson : Json → Bool
  | Json.obj _ => true
  | Json.arr _ => true
  | _ => false

/-- Skip JSON whitespace. -/
def jsonSkipWs : List Char → List Char
  | c :: rest =>
      if c = ' ' ∨ c = '\n' ∨ c = '\t' ∨ c = '\r' then jsonSkipWs rest
      else c :: rest
  | [] => []

/-- Digit run at the front of the input: returns the digits and the rest. -/
def jsonDigits : List Char → List Char × List Char
  | c :: rest =>
      if c.isDigit then
        let (ds, rem) := jsonDigits rest
        (c :: ds, rem)
      else ([], c :: rest)
  | [] => ([], [])

/-- Numeric value of a digit list (most significant first). -/
def digitsToNat (ds : List Char) : Nat :=
  ds.foldl (fun acc c => acc * 10 + (c.toNat - '0'.toNat)) 0

/-- Assemble a JSON number from sign, integer digits, fraction digits and
decimal exponent. -/
def jsonNumValue (neg : Bool) (intDs fracDs : List Char) (exp : Int) : Rat :=
  let m : Nat := digitsToNat (intDs ++ fracDs)
  let e : Int := exp - (fracDs.length : Int)
  let mag : Rat :=
    if 0 ≤ e then ((m * 10 ^ e.toNat : Nat) : Rat)
    else mkRat (m : Int) (10 ^ (-e).toNat)
  if neg then -mag else mag

/-- Parse the optional exponent part (`e`/`E` sign digits). -/
def jsonParseExp : List Char → Option (Int × List Char)
  | c :: rest =>
      if c = 'e' ∨ c = 'E' then
        match rest with
        | '+' :: rest2 =>
            match jsonDigits rest2 with
            | ([], _) => none
            | (ds, rem) => some ((digitsToNat ds : Int), rem)
        | '-' :: rest2 =>
            match jsonDigits rest2 with
            | ([], _) => none
            | (ds, rem) => some (-(digitsToNat ds : Int), rem)
        | _ =>
            match jsonDigits rest with
            | ([], _) => none
            | (ds, rem) => some ((digitsToNat ds : Int), rem)
      else some (0, c :: rest)
  | [] => some (0, [])

/-- Parse a JSON number starting at the current input. -/
def jsonParseNum (cs : List Char) : Option (Json × List Char) :=
  let (neg, cs1) :=
    match cs with
    | '-' :: rest => (true, rest)
    | _ => (false, cs)
  match jsonDigits cs1 with
  | ([], _) => none
  | (intDs, cs2) =>
      let (fracDs, cs3) :=
        match cs2 with
        | '.' :: rest =>
            match jsonDigits rest with
            | ([], _) => ([], '.' :: rest)
            | (ds, rem) => (ds, rem)
        | _ => ([], cs2)
      match cs3 with
      | '.' :: _ => none
      | _ =>
          match jsonParseExp cs3 with
          | none => none
          | some (e, cs4) => some (Json.num (jsonNumValue neg intDs fracDs e), cs4)

/-- Hex digit value, if any. -/
def hexVal (c : Char) : Option Nat :=
  if c.isDigit then some (c.toNat - '0'.toNat)
  else if 'a' ≤ c ∧ c ≤ 'f' then some (c.toNat - 'a'.toNat + 10)
  else if 'A' ≤ c ∧ c ≤ 'F' then some (c.toNat - 'A'.toNat + 10)
  else none

/-- Parse the body of a JSON string after the opening quote. -/
def jsonParseStr (acc : List Char) : List Char → Option (String × List Char)
  | [] => none
  | '"' :: rest => some (String.mk acc.reverse, rest)
  | '\\' :: esc :: rest =>
      if esc = '"' then jsonParseStr ('"' :: acc) rest
      else if esc = '\\' then jsonParseStr ('\\' :: acc) rest
      else if esc = '/' then jsonParseStr ('/' :: acc) rest
      else if esc = 'n' then jsonParseStr ('\n' :: acc) rest
      else if esc = 't' then jsonParseStr ('\t' :: acc) rest
      else if esc = 'r' then jsonParseStr ('\r' :: acc) rest
      else if esc = 'b' then jsonParseStr ('\x08' :: acc) rest
      else if esc = 'f' then jsonParseStr ('\x0c' :: acc) rest
      else if esc = 'u' then
        match rest with
        | h1 :: h2 :: h3 :: h4 :: rest2 =>
            match hexVal h1, hexVal h2, hexVal h3, hexVal h4 with
            | some a, some b, some c, some d =>
                let n := ((a * 16 + b) * 16 + c) * 16 + d
                if 55296 ≤ n ∧ n < 57344 then none
                else jsonParseStr (Char.ofNat n :: acc) rest2
            | _, _, _, _ => none
        | _ => none
      else none
  | c :: rest => jsonParseStr (c :: acc) rest

mutual

/-- Parse one JSON value; fuel bounds the recursion depth. -/
def jsonParseVal : Nat → List Char → Option (Json × List Char)
  | 0, _ => none
  | Nat.succ fuel, cs =>
      match jsonSkipWs cs with
      | [] => none
      | c :: rest =>
          if c = '\x7b' then jsonParseObj fuel [] (jsonSkipWs rest) true
          else if c = '[' then jsonParseArr fuel [] (jsonSkipWs rest) true
          else if c = '"' then
            match jsonParseStr [] rest with
            | some (s, rem) => some (Json.str s, rem)
            | none => none
          else if c = 't' then
            match rest with
            | 'r' :: 'u' :: 'e' :: rem => some (Json.bool true, rem)
            | _ => none
          else if c = 'f' then
            match rest with
            | 'a' :: 'l' :: 's' :: 'e' :: rem => some (Json.bool false, rem)
            | _ => none
          else if c = 'n' then
            match rest with
            | 'u' :: 'l' :: 'l' :: rem => some (Json.null, rem)
            | _ => none
          else jsonParseNum (c :: rest)

/-- Parse the members of an object after `\x7b`.  `first` is true before
any member has been read. -/
def jsonParseObj : Nat → List (String × Json) → List Char → Bool →
    Option (Json × List Char)
  | 0, _, _, _ => none
  | Nat.succ fuel, acc, cs, first =>
      match cs with
      | '\x7d' :: rest =>
          if first then some (Json.obj acc.reverse, rest) else none
      | _ =>
          match cs with
          | '"' :: rest =>
              match jsonParseStr [] rest with
              | none => none
              | some (k, afterKey) =>
                  match jsonSkipWs afterKey with
                  | ':' :: afterColon =>
                      match jsonParseVal fuel afterColon with
                      | none => none
                      | some (v, afterVal) =>
                          match jsonSkipWs afterVal with
                          | ',' :: afterComma =>
                              jsonParseObj fuel ((k, v) :: acc)
                                (jsonSkipWs afterComma) false
                          | '\x7d' :: rest2 =>
                              some (Json.obj ((k, v) :: acc).reverse, rest2)
                          | _ => none
                  | _ => none
          | _ => none

/-- Parse the items of an array after `[`. -/
def jsonParseArr : Nat → List Json → List Char → Bool →
    Option (Json × List Char)
  | 0, _, _, _ => none
  | Nat.succ fuel, acc, cs, first =>
      match cs with
      | ']' :: rest =>
          if first then some (Json.arr acc.reverse, rest) else none
      | _ =>
          match jsonParseVal fuel cs with
          | none => none
          | some (v, afterVal) =>
              match jsonSkipWs afterVal with
              | ',' :: afterComma =>
                  jsonParseArr fuel (v :: acc) (jsonSkipWs afterComma) false
              | ']' :: rest2 => some (Json.arr (v :: acc).reverse, rest2)
              | _ => none

end

/-- Model of `JSON.parse`: parse a complete value, requiring only
whitespace after it; `none` is the thrown `SyntaxError`. -/
def jsonParse (raw : String) : Option Json :=
  match jsonParseVal (raw.data.length + 1) raw.data with
  | some (v, rest) =>
      match jsonSkipWs rest with
      | [] => some v
      | _ => none
  | none => none

/-! ## Decision parsing and validation (autonomy.ts `parseDecision`) -/

/-- Source `isAction` applied to the JS value `parsed.action`, returning
the recognised action. -/
def toAction (v : Option Json) : Option OrchestrationAction :=
  match v with
  | some (Json.str s) =>
      if s = "abort" then some OrchestrationAction.abort
      else if s = "defer" then some OrchestrationAction.defer
      else if s = "parallel" then some OrchestrationAction.parallel
      else if s = "continue" then some OrchestrationAction.cont
      else none
  | _ => none

/-- Source `isPriority` applied to the JS value `parsed.priority`. -/
def toPriority (v : Option Json) : Option MachinaPriority :=
  match v with
  | some (Json.str s) =>
      if s = "critical" then some MachinaPriority.critical
      else if s = "high" then some MachinaPriority.high
      else if s = "medium" then some MachinaPriority.medium
      else if s = "low" then some MachinaPriority.low
      else none
  | _ => none

/-- The source check `typeof confidence !== "number" || confidence < 0 ||
confidence > 1`, returning the in-range number. -/
def toConfidence (v : Option Json) : Option Rat :=
  match v with
  | some (Json.num q) => if q < 0 ∨ 1 < q then none else some q
  | _ => none

/-- The source check `typeof reason !== "string" ||
reason.trim().length === 0`, returning the raw string. -/
def toReason (v : Option Json) : Option String :=
  match v with
  | some (Json.str s) => if (jsTrim s).data.isEmpty then none else some s
  | _ => none

/-- Source: `typeof parsed.deferUntil === "string" &&
parsed.deferUntil.length > 0 ? parsed.deferUntil : undefined`. -/
def parseDeferUntil (v : Option Json) : Option String :=
  match v with
  | some (Json.str s) => if s.data.isEmpty then none else some s
  | _ => none

/-- Source `parseParallelPlan`: an out-of-domain plan yields `undefined`;
a numeric `maxConcurrency` is floored and clamped to `[1, 32]`. -/
def parseParallelPlan (v : Option Json) : Option ParallelPlan :=
  match v with
  | some input =>
      if isRecordJson input then
        match jget input "lane", jget input "maxConcurrency" with
        | some (Json.str lane), some (Json.num mc) =>
            if lane = "foreground" then
              some ⟨Lane.foreground, max 1 (min 32 mc.floor)⟩
            else if lane = "background" then
              some ⟨Lane.background, max 1 (min 32 mc.floor)⟩
            else none
        | _, _ => none
      else none
  | none => none

/-- The validation chain of `parseDecision` on an already-parsed JSON
value (autonomy.ts lines after `JSON.parse`): the four mandatory fields
must be in range or the result is `null`; the optional fields go through
`parseDeferUntil` / `parseParallelPlan`. -/
def validateDecision (parsed : Json) : Option OrchestrationDecision :=
  if isRecordJson parsed then
    match toAction (jget parsed "action"), toConfidence (jget parsed "confidence"),
        toReason (jget parsed "reason"), toPriority (jget parsed "priority") with
    | some act, some conf, some rsn, some pr =>
        some ⟨act, conf, jsTrim rsn, pr, parseDeferUntil (jget parsed "deferUntil"),
          parseParallelPlan (jget parsed "parallelPlan")⟩
    | _, _, _, _ => none
  else none

/-- The regex fallback `raw.match(/\x7b[\s\S]*\x7d/)`: greedy span from
the first opening brace to the last closing brace, if both exist in that
order. -/
def extractBraceSpan (s : String) : Option String :=
  let tail := s.data.dropWhile (fun c => c ≠ '\x7b')
  let span := (tail.reverse.dropWhile (fun c => c ≠ '\x7d')).reverse
  if span.isEmpty then none else some (String.mk span)

/-- Source `parseDecision`: strict `JSON.parse`, then the brace-span
fallback, then field validation. -/
def parseDecision (raw : String) : Option OrchestrationDecision :=
  match
    (match jsonParse raw with
     | some v => some v
     | none =>
         match extractBraceSpan raw with
         | some sub => jsonParse sub
         | none => none) with
  | some parsed => validateDecision parsed
  | none => none

/-! ## The decision protocol (autonomy.ts `decideOrchestration`)

The two judge invocations are sequential; the judge is modelled as an
oracle `resp` giving the n-th response, and the prompts that were sent
are returned alongside the result, so that call counts are visible. -/

/-- The fixed `DECISION_SCHEMA` text. -/
def DECISION_SCHEMA : String :=
  jsJoin "\n"
    ["Return strict JSON only with keys:",
     "action: abort|defer|parallel|continue",
     "confidence: number between 0 and 1",
     "reason: concise rationale",
     "priority: critical|high|medium|low",
     "deferUntil: optional ISO timestamp",
     "parallelPlan: optional \x7b lane: foreground|background, maxConcurrency: number \x7d"]

/-- Source `createDecisionPrompt`; the `JSON.stringify`-serialized input
snapshot is supplied by the host and passed in as `inputJson`. -/
def createDecisionPrompt (inputJson : String) : String :=
  jsJoin "\n"
    ["You are open-machina orchestration judge.",
     "Decide interruption strategy for current active work.",
     "Do not use static rules. Make contextual judgement.",
     "Primary objective: maximize user goal completion while preventing direct harm.",
     DECISION_SCHEMA,
     "",
     "Input JSON:",
     inputJson]

/-- The single repair prompt sent when the first response fails
validation. -/
def repairPromptText : String :=
  jsJoin "\n"
    ["Your previous answer was invalid.",
     DECISION_SCHEMA,
     "Return one valid JSON object now."]

/-- The error message thrown when the repair also fails validation. -/
def decisionInvalidMsg : String :=
  "ORCHESTRATION_DECISION_INVALID: judge response did not return valid decision JSON"

/-- Source `decideOrchestration`: first call, validate; on failure one
repair call, validate; on second failure throw.  The second component
lists the prompts sent, in order. -/
def decideOrchestration (inputJson : String) (resp : Nat → String) :
    Except String OrchestrationDecision × List String :=
  let prompt := createDecisionPrompt inputJson
  match parseDecision (resp 0) with
  | some d => (Except.ok d, [prompt])
  | none =>
      match parseDecision (resp 1) with
      | some d => (Except.ok d, [prompt, repairPromptText])
      | none => (Except.error decisionInvalidMsg, [prompt, repairPromptText])

/-! ## Judge policy, catalog validation and credential resolution
(plugin index.ts) -/

/-- `ModelRef`: a provider/model pair. -/
structure ModelRef where
  providerID : String
  modelID : String
deriving DecidableEq

/-- Identity key `"providerID/modelID"`. -/
def modelKey (r : ModelRef) : String :=
  r.providerID ++ "/" ++ r.modelID

/-- `JudgePolicy`: allow/deny/fallback lists. -/
structure JudgePolicy where
  allow : List ModelRef
  deny : List ModelRef
  fallback : List ModelRef
deriving DecidableEq

/-- `JudgeConfig` read from the environment. -/
structure JudgeConfig where
  providerID : String
  apiUrl : Option String
  modelID : String
  authProviderID : String
deriving DecidableEq

/-- `JudgeRuntime`: the resolved, authenticated judge target. -/
structure JudgeRuntime where
  providerID : String
  modelID : String
  apiUrl : String
  token : String
deriving DecidableEq

/-- The `MACHINA_*` environment variables the judge subsystem reads.
`none` is an unset variable. -/
structure MachinaEnv where
  judgeProvider : Option String
  judgeModel : Option String
  judgeAuthProvider : Option String
  judgeApiUrl : Option String
  allowModels : Option String
  denyModels : Option String
  fallbackModels : Option String
  judgeApiKey : Option String
deriving DecidableEq

/-- `env.X?.trim()` followed by a JS truthiness test: an unset variable
or a whitespace-only value becomes `none`. -/
def trimToOpt (v : Option String) : Option String :=
  match v with
  | none => none
  | some s => if (jsTrim s).data.isEmpty then none else some (jsTrim s)

/-- `env.X?.trim() || default`. -/
def trimOrDefault (v : Option String) (d : String) : String :=
  match trimToOpt v with
  | some s => s
  | none => d

/-- Source `readJudgeConfig`: no trimmed `MACHINA_JUDGE_MODEL` means the
judge is unconfigured (`null`), with defaults `openai` /
`open-machina-judge` for the provider ids. -/
def readJudgeConfig (env : MachinaEnv) : Option JudgeConfig :=
  match trimToOpt env.judgeModel with
  | none => none
  | some modelID =>
      some ⟨trimOrDefault env.judgeProvider "openai", trimToOpt env.judgeApiUrl,
        modelID, trimOrDefault env.judgeAuthProvider "open-machina-judge"⟩

/-- One item of `parseModelRefList`: a `provider/model` pair split on the
single `/`, both sides trimmed and non-empty. -/
def parseModelRefItem (item : String) : Option ModelRef :=
  match jsSplit item '/' with
  | [p, m] =>
      if (jsTrim p).data.isEmpty ∨ (jsTrim m).data.isEmpty then none
      else some ⟨jsTrim p, jsTrim m⟩
  | _ => none

/-- Source `parseModelRefList`: comma-separated `provider/model` pairs;
malformed items are dropped. -/
def parseModelRefList (value : Option String) : List ModelRef :=
  match value with
  | none => []
  | some v =>
      if v.data.isEmpty then []
      else
        (((jsSplit v ',').map jsTrim).filter (fun item => ¬ item.data.isEmpty)).filterMap
          parseModelRefItem

/-- Source `readJudgePolicy`. -/
def readJudgePolicy (env : MachinaEnv) : JudgePolicy :=
  ⟨parseModelRefList env.allowModels, parseModelRefList env.denyModels,
    parseModelRefList env.fallbackModels⟩

/-- Inner loop of `dedupeModelRefs`, carrying the set of keys already
seen. -/
def dedupeGo (seen : List String) : List ModelRef → List ModelRef
  | [] => []
  | x :: rest =>
      if modelKey x ∈ seen then dedupeGo seen rest
      else x :: dedupeGo (modelKey x :: seen) rest

/-- Source `dedupeModelRefs`: drop every ref whose identity key was
already seen. -/
def dedupeModelRefs (items : List ModelRef) : List ModelRef :=
  dedupeGo [] items

/-- Specification-side first-seen deduplication: keep the head, remove
later refs with the same key, recurse. -/
def dedupeSpec : List ModelRef → List ModelRef
  | [] => []
  | x :: rest => x :: dedupeSpec (rest.filter (fun y => modelKey y ≠ modelKey x))
termination_by l => l.length
decreasing_by
  simpa using Nat.lt_succ_of_le (List.length_filter_le _ _)

/-- Source `isPolicyAllowed`: deny match wins; empty allow list admits
everything else; otherwise an allow match is required. -/
def isPolicyAllowed (policy : JudgePolicy) (target : ModelRef) : Bool :=
  let key := modelKey target
  if policy.deny.any (fun item => modelKey item = key) then false
  else if policy.allow.length = 0 then true
  else policy.allow.any (fun item => modelKey item = key)

/-- One provider of the host catalog: its id and the keys of its model
map. -/
structure ProviderEntry where
  id : String
  models : List String
deriving DecidableEq

/-- Outcome of the host `client.provider.list` capability.
`noCapability` is an absent `list` function; `unavailable` is a failed
call or a malformed payload — both skip validation. -/
inductive CatalogResponse where
  | noCapability
  | unavailable
  | providers (all : List ProviderEntry)
deriving DecidableEq

/-- Source `validateJudgeTarget`: `none` means valid (or unvalidatable);
`some msg` is the skip reason recorded by the resolver. -/
def validateJudgeTarget (catalog : CatalogResponse) (providerID modelID : String) :
    Option String :=
  match catalog with
  | CatalogResponse.noCapability => none
  | CatalogResponse.unavailable => none
  | CatalogResponse.providers all =>
      match all.find? (fun p => p.id = providerID) with
      | none =>
          some ("AUTONOMY_JUDGE_INVALID_PROVIDER: provider " ++ providerID ++
            " not found. Available: " ++ jsJoin ", " ((all.map ProviderEntry.id).take 8))
      | some provider =>
          if provider.models.any (fun m => m = modelID) then none
          else
            some ("AUTONOMY_JUDGE_INVALID_MODEL: model " ++ providerID ++ "/" ++ modelID ++
              " not found. Available examples: " ++ jsJoin ", " (provider.models.take 8))

/-- The repeated acceptance pattern of `pickAuthToken`: a string field
whose trimmed value is non-empty (`typeof x === "string" &&
x.trim().length > 0`, returning `x.trim()`). -/
def pickTrimmed (v : Option Json) : Option String :=
  match v with
  | some (Json.str k) => if (jsTrim k).data.isEmpty then none else some (jsTrim k)
  | _ => none

/-- Source `pickAuthToken` on a live auth record (`none` is
`undefined`): only the three shapes `api`/`oauth`/`wellknown` with a
non-empty trimmed token are accepted. -/
def pickAuthToken (auth : Option Json) : Option String :=
  match auth with
  | none => none
  | some a =>
      if isRecordJson a then
        match jget a "type" with
        | some (Json.str ty) =>
            if ty = "api" then pickTrimmed (jget a "key")
            else if ty = "oauth" then pickTrimmed (jget a "access")
            else if ty = "wellknown" then pickTrimmed (jget a "token")
            else none
        | _ => none
      else none

/-- Source `pickAuthTokenFromStore`: look the provider id up in the
parsed auth-store payload (`none` is an unreadable or unparsable file). -/
def pickAuthTokenFromStore (payload : Option Json) (providerID : String) : Option String :=
  match payload with
  | none => none
  | some p => if isRecordJson p then pickAuthToken (jget p providerID) else none

/-- Source `resolveJudgeToken`: live accessor, then the persisted store
under the auth-provider id, then under the raw provider id, then the
`MACHINA_JUDGE_API_KEY` environment variable; `none` if every step
fails. -/
def resolveJudgeToken (live storePayload : Option Json) (envApiKey : Option String)
    (authProviderID providerID : String) : Option String :=
  match pickAuthToken live with
  | some t => some t
  | none =>
      match
        (match pickAuthTokenFromStore storePayload authProviderID with
         | some t => some t
         | none => pickAuthTokenFromStore storePayload providerID) with
      | some t => some t
      | none => trimToOpt envApiKey

/-- Source `inferJudgeApiUrl`. -/
def inferJudgeApiUrl (providerID : String) : Option String :=
  let provider := jsToLower (jsTrim providerID)
  if provider = "openai" then some "https://api.openai.com/v1/chat/completions"
  else if provider = "openrouter" then some "https://openrouter.ai/api/v1/chat/completions"
  else if provider = "xai" then some "https://api.x.ai/v1/chat/completions"
  else none

/-- The candidate loop of `resolveJudgeRuntime`: walk the candidates in
order, recording a skip reason for each denied or catalog-invalid one,
and stop at the first survivor. -/
def selectCandidate (policy : JudgePolicy) (catalog : CatalogResponse) :
    List ModelRef → Option ModelRef × List String
  | [] => (none, [])
  | c :: rest =>
      if isPolicyAllowed policy c then
        match validateJudgeTarget catalog c.providerID c.modelID with
        | some msg =>
            let (sel, skips) := selectCandidate policy catalog rest
            (sel, msg :: skips)
        | none => (some c, [])
      else
        let (sel, skips) := selectCandidate policy catalog rest
        (sel, ("POLICY_DENY:" ++ c.providerID ++ "/" ++ c.modelID) :: skips)

/-- Outcome of `resolveJudgeRuntime`: `noRuntime` is a `null` return
(unconfigured judge or missing credential), `blocked` is the thrown
`AUTONOMY_JUDGE_POLICY_BLOCKED` error. -/
inductive ResolveOutcome where
  | noRuntime
  | blocked (msg : String)
  | ok (rt : JudgeRuntime)
deriving DecidableEq

/-- The base `ModelRef` of `resolveJudgeRuntime`: hint fields (trimmed,
when non-empty) win over the configured ones. -/
def baseModelRef (config : JudgeConfig) (modelHint : Option ModelRef) : ModelRef :=
  match modelHint with
  | none => ⟨config.providerID, config.modelID⟩
  | some h =>
      ⟨if (jsTrim h.providerID).data.isEmpty then config.providerID else jsTrim h.providerID,
       if (jsTrim h.modelID).data.isEmpty then config.modelID else jsTrim h.modelID⟩

/-- Source `resolveJudgeRuntime`: read config and policy, build the
deduplicated base-then-fallback candidate list, select the first
allowed and catalog-valid candidate (throwing `blocked` with the joined
skip reasons if none survives), resolve a credential (`noRuntime` if
none), and assemble the runtime with the explicit, inferred or default
API URL. -/
def resolveJudgeRuntime (env : MachinaEnv) (catalog : CatalogResponse)
    (live storePayload : Option Json) (modelHint : Option ModelRef) : ResolveOutcome :=
  match readJudgeConfig env with
  | none => ResolveOutcome.noRuntime
  | some config =>
      let policy := readJudgePolicy env
      let base := baseModelRef config modelHint
      if base.providerID.data.isEmpty ∨ base.modelID.data.isEmpty then
        ResolveOutcome.noRuntime
      else
        let candidates := dedupeModelRefs (base :: policy.fallback)
        match selectCandidate policy catalog candidates with
        | (none, skips) =>
            ResolveOutcome.blocked
              ("AUTONOMY_JUDGE_POLICY_BLOCKED: no valid model candidate. " ++
                jsJoin " | " skips)
        | (some selected, _) =>
            match resolveJudgeToken live storePayload env.judgeApiKey
                config.authProviderID selected.providerID with
            | none => ResolveOutcome.noRuntime
            | some token =>
                ResolveOutcome.ok
                  ⟨selected.providerID, selected.modelID,
                    (match config.apiUrl with
                     | some u => u
                     | none =>
                         match inferJudgeApiUrl selected.providerID with
                         | some u => u
                         | none => "https://api.openai.com/v1/chat/completions"),
                    token⟩

/-- The judge-unavailable error text of the `open_machina_decide` tool. -/
def unavailableMsg : String :=
  "AUTONOMY_JUDGE_UNAVAILABLE: run `opencode auth login` for provider open-machina-judge (or set MACHINA_JUDGE_AUTH_PROVIDER) and configure MACHINA_JUDGE_MODEL"

/-- The `open_machina_decide` tool body: an unresolved judge raises
`AUTONOMY_JUDGE_UNAVAILABLE`, a blocked one propagates its error, and
otherwise one decision round runs. -/
def openMachinaDecide (env : MachinaEnv) (catalog : CatalogResponse)
    (live storePayload : Option Json) (modelHint : Option ModelRef)
    (inputJson : String) (resp : Nat → String) : Except String OrchestrationDecision :=
  match resolveJudgeRuntime env catalog live storePayload modelHint with
  | ResolveOutcome.noRuntime => Except.error unavailableMsg
  | ResolveOutcome.blocked msg => Except.error msg
  | ResolveOutcome.ok _ => (decideOrchestration inputJson resp).fst

/-! ## Session arbitration state machine and chat hook (plugin index.ts) -/

/-- The control marker prefixing injected decision text. -/
def CONTROL_MARKER : String := "[OPEN-MACHINA CONTROL]"

/-- Availability of the three optional host session-control calls
(`client.session.abort`, `client.session.promptAsync`,
`client.session.prompt`). -/
structure HostSession where
  abort : Bool
  promptAsync : Bool
  prompt : Bool
deriving DecidableEq

/-- A call actually issued to the host session-control surface. -/
inductive HostCall where
  | abort (sessionID : String)
  | promptAsync (sessionID text : String)
  | promptSync (sessionID text : String)
deriving DecidableEq

/-- The interruption text sent through the prompt fallbacks. -/
def interruptionText : String :=
  "open-machina requested interruption due to new higher-priority user intent"

/-- Source `abortSession`: `abort` if present, else `promptAsync`, else
`prompt`; the issued calls (at most one) are returned. -/
def abortSession (host : HostSession) (sessionID : String) : List HostCall :=
  if host.abort then [HostCall.abort sessionID]
  else if host.promptAsync then [HostCall.promptAsync sessionID interruptionText]
  else if host.prompt then [HostCall.promptSync sessionID interruptionText]
  else []

/-- Whether a given host call is available on a given surface. -/
def callAvailable (host : HostSession) : HostCall → Bool
  | HostCall.abort _ => host.abort
  | HostCall.promptAsync _ _ => host.promptAsync
  | HostCall.promptSync _ _ => host.prompt

/-- The `(until <deferUntil>)` relabeling of a deferred title. -/
def deferTitle (title : String) : Option String → String
  | none => title
  | some u => if u.data.isEmpty then title else title ++ " (until " ++ u ++ ")"

/-- Source `applyDefer`: the head running item is copied with status
`blocked` and the relabeled title, moved to the front of the deferred
queue with any prior entry of the same id removed, and the queue is
capped at 16. -/
def applyDefer (state : SessionRuntimeState) (active : List ActiveWorkItem)
    (deferUntil : Option String) : SessionRuntimeState :=
  match active with
  | [] => state
  | top :: _ =>
      ⟨(⟨top.id, deferTitle top.title deferUntil, WorkStatus.blocked, top.priority,
          top.startedAt⟩ ::
        state.deferred.filter (fun item => item.id ≠ top.id)).take 16,
       state.parallel⟩

/-- String of an action, as serialized into the control text. -/
def actionToString : OrchestrationAction → String
  | OrchestrationAction.abort => "abort"
  | OrchestrationAction.defer => "defer"
  | OrchestrationAction.parallel => "parallel"
  | OrchestrationAction.cont => "continue"

/-- String of a priority. -/
def priorityToString : MachinaPriority → String
  | MachinaPriority.critical => "critical"
  | MachinaPriority.high => "high"
  | MachinaPriority.medium => "medium"
  | MachinaPriority.low => "low"

/-- String of a lane. -/
def laneToString : Lane → String
  | Lane.foreground => "foreground"
  | Lane.background => "background"

/-- Rendering of a JS number into the control text; printed as an
integer or as an exact fraction (the host's decimal formatting is not
modelled further, and no claim depends on it). -/
def jsNumToString (q : Rat) : String :=
  if q.den = 1 then toString q.num else toString q.num ++ "/" ++ toString q.den

/-- Source `applyParallel`: a synthetic queued item
`parallel:<epoch-ms>` titled with the lane, the concurrency cap and the
first 80 characters of the prompt is prepended to the parallel queue,
capped at 16. -/
def applyParallel (state : SessionRuntimeState) (prompt : String)
    (d : OrchestrationDecision) (nowIso : String) (nowMs : Nat) : SessionRuntimeState :=
  let lane := match d.parallelPlan with
    | some p => p.lane
    | none => Lane.background
  let maxConcurrency := match d.parallelPlan with
    | some p => p.maxConcurrency
    | none => (1 : Int)
  let item : ActiveWorkItem :=
    ⟨"parallel:" ++ toString nowMs,
     laneToString lane ++ " x" ++ toString maxConcurrency ++ ": " ++ jsSlice prompt 80,
     WorkStatus.queued, d.priority, nowIso⟩
  ⟨state.deferred, (item :: state.parallel).take 16⟩

/-- Source `formatRuntimeState`. -/
def formatRuntimeState (state : SessionRuntimeState) : String :=
  if state.deferred.length = 0 ∧ state.parallel.length = 0 then
    CONTROL_MARKER ++ " continue-current-plan"
  else
    jsJoin " "
      [CONTROL_MARKER,
       "deferred=" ++ toString state.deferred.length,
       "parallel=" ++ toString state.parallel.length,
       (if 0 < state.deferred.length then
          "defer-head=" ++ (match state.deferred.head? with
            | some i => i.title
            | none => "none")
        else "defer-head=none"),
       (if 0 < state.parallel.length then
          "parallel-head=" ++ (match state.parallel.head? with
            | some i => i.title
            | none => "none")
        else "parallel-head=none")]

/-- The decision-application block of the chat hook (the three `if`
statements on `decision.action`): returns the new session state, the
number of `abortSession` invocations, and the host calls issued. -/
def applyDecision (host : HostSession) (sessionID : String)
    (runtime : SessionRuntimeState) (active : List ActiveWorkItem) (prompt : String)
    (nowIso : String) (nowMs : Nat) (d : OrchestrationDecision) :
    SessionRuntimeState × Nat × List HostCall :=
  let cleared : SessionRuntimeState × Nat × List HostCall :=
    if d.action = OrchestrationAction.abort then
      (⟨[], []⟩, 1, abortSession host sessionID)
    else (runtime, 0, [])
  let runtime2 :=
    if d.action = OrchestrationAction.defer then
      applyDefer cleared.fst active d.deferUntil
    else cleared.fst
  let runtime3 :=
    if d.action = OrchestrationAction.parallel then
      applyParallel runtime2 prompt d nowIso nowMs
    else runtime2
  (runtime3, cleared.snd.fst, cleared.snd.snd)

/-- One outgoing message part (`type` and optional `text`). -/
structure MessagePart where
  type : String
  text : Option String
deriving DecidableEq

/-- Result of one run of the chat-message hook: the (possibly spliced)
parts, the session runtime state, the tracker's work list, the number of
`abortSession` invocations, the host calls issued, the prompts sent to
the judge, and a raised error if any. -/
structure ChatOutcome where
  parts : List MessagePart
  runtime : SessionRuntimeState
  work : List ActiveWorkItem
  abortCount : Nat
  hostCalls : List HostCall
  judgePrompts : List String
  error : Option String
deriving DecidableEq

/-- The prompt assembled from the outgoing parts: text parts joined with
newlines and trimmed. -/
def promptOfParts (parts : List MessagePart) : String :=
  jsTrim (jsJoin "\n"
    ((parts.filter (fun p => p.type = "text" ∧ p.text.isSome)).map
      (fun p => p.text.getD "")))

/-- The decision text injected before the first text part. -/
def decisionText (d : OrchestrationDecision) (state : SessionRuntimeState) : String :=
  jsJoin "\n"
    ["[OPEN-MACHINA ORCHESTRATION DECISION]",
     "action=" ++ actionToString d.action,
     "priority=" ++ priorityToString d.priority,
     "confidence=" ++ jsNumToString d.confidence,
     "reason=" ++ d.reason,
     formatRuntimeState state]

/-- Splice the decision text before the first text part, keeping the
original text after a separator. -/
def spliceParts (parts : List MessagePart) (text : String) : List MessagePart :=
  match parts.findIdx? (fun p => p.type = "text") with
  | none => parts
  | some i =>
      parts.set i
        ⟨"text",
         some (text ++ "\n\n---\n\n" ++
           (match parts.get? i with
            | some p => p.text.getD ""
            | none => ""))⟩

/-- The `chat.message` hook: short-circuit when no work item is running,
when the prompt is empty, when the prompt already carries the control
marker, or when no judge runtime resolves; otherwise run one decision
round, apply the decision and splice the control text into the outgoing
parts.  `inputJson` is the host-serialized decision-input snapshot and
`resp` the judge response oracle. -/
def chatMessageHook (env : MachinaEnv) (catalog : CatalogResponse)
    (live storePayload : Option Json) (host : HostSession) (modelHint : Option ModelRef)
    (sessionID : String) (work : List ActiveWorkItem) (runtime : SessionRuntimeState)
    (parts : List MessagePart) (inputJson : String) (resp : Nat → String)
    (nowIso : String) (nowMs : Nat) : ChatOutcome :=
  let noop : ChatOutcome := ⟨parts, runtime, work, 0, [], [], none⟩
  let active := work.filter (fun item => item.status = WorkStatus.running)
  if active.isEmpty then noop
  else
    let prompt := promptOfParts parts
    if prompt.data.isEmpty then noop
    else if jsIncludes prompt CONTROL_MARKER then noop
    else
      match resolveJudgeRuntime env catalog live storePayload modelHint with
      | ResolveOutcome.noRuntime => noop
      | ResolveOutcome.blocked msg =>
          ⟨parts, runtime, work, 0, [], [], some msg⟩
      | ResolveOutcome.ok _ =>
          match decideOrchestration inputJson resp with
          | (Except.error msg, prompts) =>
              ⟨parts, runtime, work, 0, [], prompts, some msg⟩
          | (Except.ok d, prompts) =>
              let applied := applyDecision host sessionID runtime active prompt nowIso nowMs d
              ⟨spliceParts parts (decisionText d applied.fst), applied.fst, work,
                applied.snd.fst, applied.snd.snd, prompts, none⟩

/-! ## Theorems -/

/-- C3: deny matches reject the ref even when the allow list also holds
it; a non-denied ref is admitted when the allow list is empty, and
otherwise exactly when the allow list holds its key. -/
theorem policy_deny_overrides_allow (policy : JudgePolicy) (ref : ModelRef) :
    (policy.deny.any (fun item => modelKey item = modelKey ref) = true →
      isPolicyAllowed policy ref = false) ∧
    (policy.deny.any (fun item => modelKey item = modelKey ref) = false →
      policy.allow = [] → isPolicyAllowed policy ref = true) ∧
    (policy.deny.any (fun item => modelKey item = modelKey ref) = false →
      policy.allow ≠ [] →
      (isPolicyAllowed policy ref = true ↔
        policy.allow.any (fun item => modelKey item = modelKey ref) = true)) := by
  refine ⟨fun hd => ?_, fun hd ha => ?_, fun hd ha => ?_⟩
  · simp [isPolicyAllowed, hd]
  · simp [isPolicyAllowed, hd, ha]
  · have hlen : policy.allow.length ≠ 0 := by
      simpa [List.length_eq_zero] using ha
    simp [isPolicyAllowed, hd, hlen]

theorem policy_deny_overrides_allow_witness :
    isPolicyAllowed ⟨[⟨"openai", "gpt-primary"⟩], [⟨"openai", "gpt-primary"⟩], []⟩
      ⟨"openai", "gpt-primary"⟩ = false :=
  (policy_deny_overrides_allow ⟨[⟨"openai", "gpt-primary"⟩], [⟨"openai", "gpt-primary"⟩], []⟩
    ⟨"openai", "gpt-primary"⟩).1 (by decide)

/-- C6 (corrected): the host session-control calls are tried in the
order `abort`, `promptAsync`, `promptSync`; the first available one is
the only call issued. -/
theorem abort_call_preference (host : HostSession) (sessionID : String) :
    abortSession host sessionID =
      (([HostCall.abort sessionID,
         HostCall.promptAsync sessionID interruptionText,
         HostCall.promptSync sessionID interruptionText]).filter
        (callAvailable host)).take 1 := by
  obtain ⟨a, pa, p⟩ := host
  cases a <;> cases pa <;> cases p <;> rfl

/-- C6 counterexample: with `abort` absent and both prompt calls
available, the call issued is `promptAsync`, not `promptSync` as the
claimed preference order would require. -/
theorem abort_call_order_counterexample :
    abortSession ⟨false, true, true⟩ "session-1" =
      [HostCall.promptAsync "session-1" interruptionText] ∧
    HostCall.promptAsync "session-1" interruptionText ≠
      HostCall.promptSync "session-1" interruptionText := by
  constructor
  · rfl
  · decide

/-- C5: an abort decision empties both queues whatever they held, and
`abortSession` is invoked exactly once. -/
theorem abort_clears_queues (host : HostSession) (sessionID : String)
    (runtime : SessionRuntimeState) (active : List ActiveWorkItem) (prompt : String)
    (nowIso : String) (nowMs : Nat) (d : OrchestrationDecision)
    (h : d.action = OrchestrationAction.abort) :
    (applyDecision host sessionID runtime active prompt nowIso nowMs d).fst.deferred = [] ∧
    (applyDecision host sessionID runtime active prompt nowIso nowMs d).fst.parallel = [] ∧
    (applyDecision host sessionID runtime active prompt nowIso nowMs d).snd.fst = 1 ∧
    (applyDecision host sessionID runtime active prompt nowIso nowMs d).snd.snd =
      abortSession host sessionID := by
  simp [applyDecision, h]

theorem abort_clears_queues_witness :
    (applyDecision ⟨true, false, false⟩ "s"
      ⟨[⟨"d1", "old deferred", WorkStatus.blocked, MachinaPriority.low, "t0"⟩],
       [⟨"p1", "old parallel", WorkStatus.queued, MachinaPriority.low, "t0"⟩]⟩
      [] "stop now" "t1" 0
      ⟨OrchestrationAction.abort, 1, "incident", MachinaPriority.critical, none, none⟩).fst.deferred
      = [] ∧
    (applyDecision ⟨true, false, false⟩ "s"
      ⟨[⟨"d1", "old deferred", WorkStatus.blocked, MachinaPriority.low, "t0"⟩],
       [⟨"p1", "old parallel", WorkStatus.queued, MachinaPriority.low, "t0"⟩]⟩
      [] "stop now" "t1" 0
      ⟨OrchestrationAction.abort, 1, "incident", MachinaPriority.critical, none, none⟩).fst.parallel
      = [] ∧
    (applyDecision ⟨true, false, false⟩ "s"
      ⟨[⟨"d1", "old deferred", WorkStatus.blocked, MachinaPriority.low, "t0"⟩],
       [⟨"p1", "old parallel", WorkStatus.queued, MachinaPriority.low, "t0"⟩]⟩
      [] "stop now" "t1" 0
      ⟨OrchestrationAction.abort, 1, "incident", MachinaPriority.critical, none, none⟩).snd.fst
      = 1 := by
  have h := abort_clears_queues ⟨true, false, false⟩ "s"
    ⟨[⟨"d1", "old deferred", WorkStatus.blocked, MachinaPriority.low, "t0"⟩],
     [⟨"p1", "old parallel", WorkStatus.queued, MachinaPriority.low, "t0"⟩]⟩
    [] "stop now" "t1" 0
    ⟨OrchestrationAction.abort, 1, "incident", MachinaPriority.critical, none, none⟩ rfl
  exact ⟨h.1, h.2.1, h.2.2.1⟩

/-- C8: a defer decision against a non-empty active list prepends a
blocked, relabeled copy of the head running item to the deferred queue,
removing any prior entry of the same id first and capping the queue at
16; the parallel queue is untouched. -/
theorem applyDefer_moves_head_to_front (state : SessionRuntimeState)
    (active : List ActiveWorkItem) (top : ActiveWorkItem) (rest : List ActiveWorkItem)
    (du : Option String) (h : active = top :: rest) :
    (applyDefer state active du).deferred =
      (⟨top.id, deferTitle top.title du, WorkStatus.blocked, top.priority, top.startedAt⟩ ::
        state.deferred.filter (fun item => item.id ≠ top.id)).take 16 ∧
    (applyDefer state active du).deferred.head? =
      some ⟨top.id, deferTitle top.title du, WorkStatus.blocked, top.priority,
        top.startedAt⟩ ∧
    (applyDefer state active du).deferred.length ≤ 16 ∧
    (applyDefer state active du).parallel = state.parallel := by
  subst h
  refine ⟨rfl, ?_, ?_, rfl⟩
  · simp [applyDefer, List.take_succ_cons]
  · simp [applyDefer]

/-- An in-range confidence is the only way `toConfidence` succeeds. -/
theorem toConfidence_bounds (v : Option Json) (q : Rat) (h : toConfidence v = some q) :
    0 ≤ q ∧ q ≤ 1 := by
  cases v with
  | none => simp [toConfidence] at h
  | some a =>
      cases a <;> simp [toConfidence] at h
      case num q' =>
        rcases h with ⟨⟨h1, h2⟩, hq⟩
        subst hq
        exact ⟨h1, h2⟩

/-- A reason accepted by `toReason` is non-empty after trimming. -/
theorem toReason_nonempty (v : Option Json) (r : String) (h : toReason v = some r) :
    (jsTrim r).data ≠ [] := by
  cases v with
  | none => simp [toReason] at h
  | some a =>
      cases a <;> simp [toReason] at h
      case str s =>
        rcases h with ⟨hne, hs⟩
        subst hs
        simpa [List.isEmpty_iff] using hne

/-- C1 (corrected): an out-of-domain mandatory field (action,
confidence, reason, priority) invalidates the whole decision, while an
out-of-domain optional `deferUntil` or `parallelPlan` is dropped by the
lenient optional parsers and the decision stays valid. -/
theorem decision_mandatory_fields_strict (j : Json) :
    ((toAction (jget j "action")).isNone = true ∨
     (toConfidence (jget j "confidence")).isNone = true ∨
     (toReason (jget j "reason")).isNone = true ∨
     (toPriority (jget j "priority")).isNone = true →
      validateDecision j = none) ∧
    (∀ d, validateDecision j = some d →
      d.deferUntil = parseDeferUntil (jget j "deferUntil") ∧
      d.parallelPlan = parseParallelPlan (jget j "parallelPlan") ∧
      0 ≤ d.confidence ∧ d.confidence ≤ 1 ∧ d.reason.data ≠ []) ∧
    (isRecordJson j = true →
      (toAction (jget j "action")).isSome = true →
      (toConfidence (jget j "confidence")).isSome = true →
      (toReason (jget j "reason")).isSome = true →
      (toPriority (jget j "priority")).isSome = true →
      (validateDecision j).isSome = true) := by
  cases hrec : isRecordJson j with
  | false =>
      refine ⟨fun _ => ?_, fun d hd => ?_, fun h3 => ?_⟩ <;> simp_all [validateDecision]
  | true =>
      simp only [validateDecision, hrec, if_true]
      cases hA : toAction (jget j "action") <;>
        cases hC : toConfidence (jget j "confidence") <;>
          cases hR : toReason (jget j "reason") <;>
            cases hP : toPriority (jget j "priority") <;>
              simp_all
      case some.some.some.some a c r p =>
        exact ⟨(toConfidence_bounds _ _ hC).1, (toConfidence_bounds _ _ hC).2,
          toReason_nonempty _ _ hR⟩

/-- C1 counterexample: a response whose `deferUntil` is a number (out of
the declared string domain) still parses into a decision — the field is
dropped, the whole decision is not invalidated. -/
theorem decision_optional_dropped_counterexample :
    (parseDecision
      "\x7b\"action\":\"continue\",\"confidence\":0.5,\"reason\":\"ok\",\"priority\":\"low\",\"deferUntil\":7\x7d").isSome
      = true ∧
    (parseDecision
      "\x7b\"action\":\"continue\",\"confidence\":0.5,\"reason\":\"ok\",\"priority\":\"low\",\"deferUntil\":7\x7d").map
        OrchestrationDecision.deferUntil = some none := by
  decide

/-- C1 witness: a record with an unrecognised action is rejected as a
whole. -/
theorem decision_mandatory_fields_strict_witness :
    validateDecision (Json.obj [("action", Json.str "sleep")]) = none :=
  (decision_mandatory_fields_strict (Json.obj [("action", Json.str "sleep")])).1
    (Or.inl (by decide))

/-- Unfolding lemma for `dedupeSpec` on a non-empty list. -/
theorem dedupeSpec_cons (x : ModelRef) (l : List ModelRef) :
    dedupeSpec (x :: l) = x :: dedupeSpec (l.filter (fun y => modelKey y ≠ modelKey x)) := by
  rw [dedupeSpec.eq_def]

/-- The seen-set loop of `dedupeModelRefs` agrees with the first-seen
specification on the part of the input not yet seen. -/
theorem dedupeGo_eq_spec (xs : List ModelRef) : ∀ seen : List String,
    dedupeGo seen xs = dedupeSpec (xs.filter (fun y => decide (modelKey y ∉ seen))) := by
  induction xs with
  | nil => intro seen; simp [dedupeGo, dedupeSpec]
  | cons x rest ih =>
      intro seen
      by_cases hx : modelKey x ∈ seen
      · simp [dedupeGo, hx, ih seen]
      · have hfilter : (x :: rest).filter (fun y => decide (modelKey y ∉ seen)) =
            x :: rest.filter (fun y => decide (modelKey y ∉ seen)) := by
          simp [hx]
        calc dedupeGo seen (x :: rest)
            = x :: dedupeGo (modelKey x :: seen) rest := by simp [dedupeGo, hx]
          _ = x :: dedupeSpec
                (rest.filter (fun y => decide (modelKey y ∉ modelKey x :: seen))) := by
                rw [ih (modelKey x :: seen)]
          _ = dedupeSpec ((x :: rest).filter (fun y => decide (modelKey y ∉ seen))) := by
                rw [hfilter, dedupeSpec_cons, List.filter_filter]
                have hpt : ∀ y ∈ rest,
                    (decide (modelKey y ∉ modelKey x :: seen)) =
                      (decide (modelKey y ≠ modelKey x) && decide (modelKey y ∉ seen)) := by
                  intro y _
                  by_cases hy : modelKey y = modelKey x <;>
                    by_cases hys : modelKey y ∈ seen <;> simp [hy, hys]
                rw [List.filter_congr hpt]

/-- `dedupeModelRefs` removes duplicates by identity key keeping the
first occurrence, in order. -/
theorem dedupeModelRefs_eq_spec (xs : List ModelRef) :
    dedupeModelRefs xs = dedupeSpec xs := by
  have h := dedupeGo_eq_spec xs []
  simpa [dedupeModelRefs] using h

/-- The candidate loop selects exactly the first candidate that is both
policy-allowed and catalog-valid. -/
theorem selectCandidate_eq_find (policy : JudgePolicy) (catalog : CatalogResponse)
    (l : List ModelRef) :
    (selectCandidate policy catalog l).fst =
      l.find? (fun c => isPolicyAllowed policy c &&
        (validateJudgeTarget catalog c.providerID c.modelID).isNone) := by
  induction l with
  | nil => rfl
  | cons c rest ih =>
      rcases hpair : selectCandidate policy catalog rest with ⟨sel, skips⟩
      rw [hpair] at ih
      cases hA : isPolicyAllowed policy c
      · simp [selectCandidate, hA, hpair, List.find?, ih]
      · cases hV : validateJudgeTarget catalog c.providerID c.modelID
        · simp [selectCandidate, hA, hV, List.find?]
        · simp [selectCandidate, hA, hV, hpair, List.find?, ih]

/-- The String underlying a `trimToOpt` success is non-empty. -/
theorem trimToOpt_ne_empty (v : Option String) (s : String) (h : trimToOpt v = some s) :
    s.data ≠ [] := by
  cases v with
  | none => simp [trimToOpt] at h
  | some s' =>
      simp only [trimToOpt] at h
      split at h
      · exact absurd h (by simp)
      · next hcond =>
          injection h with h
          subst h
          simpa [List.isEmpty_iff] using hcond

/-- `trimOrDefault` never returns an empty string for a non-empty
default. -/
theorem trimOrDefault_ne_empty (v : Option String) (d : String) (hd : d.data ≠ []) :
    (trimOrDefault v d).data ≠ [] := by
  unfold trimOrDefault
  cases h : trimToOpt v with
  | none => exact hd
  | some s => exact trimToOpt_ne_empty v s h

/-- A successfully read judge config has non-empty provider and model
ids. -/
theorem readJudgeConfig_fields (env : MachinaEnv) (config : JudgeConfig)
    (h : readJudgeConfig env = some config) :
    config.providerID.data ≠ [] ∧ config.modelID.data ≠ [] := by
  unfold readJudgeConfig at h
  cases hm : trimToOpt env.judgeModel with
  | none => rw [hm] at h; exact absurd h (by simp)
  | some m =>
      rw [hm] at h
      injection h with h
      subst h
      exact ⟨trimOrDefault_ne_empty _ _ (by decide), trimToOpt_ne_empty _ _ hm⟩

/-- The base candidate has non-empty fields whenever the config does. -/
theorem baseModelRef_ne_empty (config : JudgeConfig) (hint : Option ModelRef)
    (hp : config.providerID.data ≠ []) (hm : config.modelID.data ≠ []) :
    (baseModelRef config hint).providerID.data ≠ [] ∧
    (baseModelRef config hint).modelID.data ≠ [] := by
  cases hint with
  | none => exact ⟨hp, hm⟩
  | some h =>
      constructor
      · dsimp only [baseModelRef]
        split
        · exact hp
        · next hcond => simpa [List.isEmpty_iff] using hcond
      · dsimp only [baseModelRef]
        split
        · exact hm
        · next hcond => simpa [List.isEmpty_iff] using hcond

/-- C2: the candidate list is the deduplicated (first-seen, by identity
key) base-then-fallback list; the loop selects the first allowed and
catalog-valid candidate; and the resolver's runtime carries exactly the
selected candidate once a credential resolves. -/
theorem judge_candidate_selection (env : MachinaEnv) (catalog : CatalogResponse)
    (live storePayload : Option Json) (hint : Option ModelRef) (base : ModelRef)
    (policy : JudgePolicy) (hpol : readJudgePolicy env = policy) :
    dedupeModelRefs (base :: policy.fallback) = dedupeSpec (base :: policy.fallback) ∧
    (selectCandidate policy catalog (dedupeModelRefs (base :: policy.fallback))).fst =
      (dedupeModelRefs (base :: policy.fallback)).find?
        (fun c => isPolicyAllowed policy c &&
          (validateJudgeTarget catalog c.providerID c.modelID).isNone) ∧
    (∀ config sel token,
      readJudgeConfig env = some config →
      baseModelRef config hint = base →
      (selectCandidate policy catalog (dedupeModelRefs (base :: policy.fallback))).fst =
        some sel →
      resolveJudgeToken live storePayload env.judgeApiKey config.authProviderID
        sel.providerID = some token →
      ∃ rt, resolveJudgeRuntime env catalog live storePayload hint = ResolveOutcome.ok rt ∧
        rt.providerID = sel.providerID ∧ rt.modelID = sel.modelID ∧ rt.token = token) := by
  refine ⟨dedupeModelRefs_eq_spec _, selectCandidate_eq_find _ _ _, ?_⟩
  intro config sel token hc hb hsel htok
  have hne := baseModelRef_ne_empty config hint (readJudgeConfig_fields env config hc).1
    (readJudgeConfig_fields env config hc).2
  rw [hb] at hne
  rcases hpair : selectCandidate policy catalog (dedupeModelRefs (base :: policy.fallback))
    with ⟨s, skips⟩
  rw [hpair] at hsel
  simp only at hsel
  subst hsel
  unfold resolveJudgeRuntime
  rw [hc]
  have hfalse : ¬(base.providerID.data.isEmpty = true ∨ base.modelID.data.isEmpty = true) := by
    simp [List.isEmpty_iff, hne.1, hne.2]
  simp only [hpol, hb]
  rw [if_neg hfalse]
  simp only [hpair, htok]
  exact ⟨_, rfl, rfl, rfl, rfl⟩

/-- C2 witness: with base `openai/gpt-primary` denied and
`openai/gpt-fallback` as fallback, resolution selects the fallback and
the runtime carries it together with the environment credential. -/
theorem judge_candidate_selection_witness :
    ∃ rt,
      resolveJudgeRuntime
        ⟨some "openai", some "gpt-primary", none, none, none,
          some "openai/gpt-primary", some "openai/gpt-fallback", some "k"⟩
        CatalogResponse.noCapability none none none = ResolveOutcome.ok rt ∧
      rt.providerID = "openai" ∧ rt.modelID = "gpt-fallback" ∧ rt.token = "k" :=
  (judge_candidate_selection
    ⟨some "openai", some "gpt-primary", none, none, none,
      some "openai/gpt-primary", some "openai/gpt-fallback", some "k"⟩
    CatalogResponse.noCapability none none none ⟨"openai", "gpt-primary"⟩
    ⟨[], [⟨"openai", "gpt-primary"⟩], [⟨"openai", "gpt-fallback"⟩]⟩ (by decide)).2.2
    ⟨"openai", none, "gpt-primary", "open-machina-judge"⟩
    ⟨"openai", "gpt-fallback"⟩ "k" (by decide) (by decide) (by decide) (by decide)

/-- A `pickTrimmed` success is a non-empty trimmed string. -/
theorem pickTrimmed_ne_empty (v : Option Json) (t : String)
    (h : pickTrimmed v = some t) : t.data ≠ [] := by
  cases v with
  | none => simp [pickTrimmed] at h
  | some j =>
      cases j <;> simp [pickTrimmed] at h
      case str k =>
        rcases h with ⟨hne, hk⟩
        subst hk
        simpa [List.isEmpty_iff] using hne

/-- C7: the credential cascade tries the live accessor, then the store
under the auth-provider id, then the store under the raw provider id,
then the trimmed environment key; the first success wins and total
failure yields `none` rather than an error. -/
theorem token_cascade_order (live storePayload : Option Json) (envApiKey : Option String)
    (authProviderID providerID : String) :
    (∀ t, pickAuthToken live = some t →
      resolveJudgeToken live storePayload envApiKey authProviderID providerID = some t) ∧
    (pickAuthToken live = none →
      ∀ t, pickAuthTokenFromStore storePayload authProviderID = some t →
        resolveJudgeToken live storePayload envApiKey authProviderID providerID = some t) ∧
    (pickAuthToken live = none →
      pickAuthTokenFromStore storePayload authProviderID = none →
      ∀ t, pickAuthTokenFromStore storePayload providerID = some t →
        resolveJudgeToken live storePayload envApiKey authProviderID providerID = some t) ∧
    (pickAuthToken live = none →
      pickAuthTokenFromStore storePayload authProviderID = none →
      pickAuthTokenFromStore storePayload providerID = none →
      resolveJudgeToken live storePayload envApiKey authProviderID providerID =
        trimToOpt envApiKey) ∧
    (∀ a t, pickAuthToken (some a) = some t →
      t.data ≠ [] ∧
      (jget a "type" = some (Json.str "api") ∨ jget a "type" = some (Json.str "oauth") ∨
        jget a "type" = some (Json.str "wellknown"))) := by
  refine ⟨fun t h1 => ?_, fun h1 t h2 => ?_, fun h1 h2 t h3 => ?_, fun h1 h2 h3 => ?_,
    fun a t h => ?_⟩
  · simp [resolveJudgeToken, h1]
  · simp [resolveJudgeToken, h1, h2]
  · simp [resolveJudgeToken, h1, h2, h3]
  · simp [resolveJudgeToken, h1, h2, h3]
  · simp only [pickAuthToken] at h
    split at h
    · rcases hty : jget a "type" with _ | j
      · rw [hty] at h
        simp at h
      · rw [hty] at h
        cases j
        case str ty =>
          by_cases h1 : ty = "api"
          · simp [h1] at h
            exact ⟨pickTrimmed_ne_empty _ _ h, Or.inl (by rw [h1])⟩
          · by_cases h2 : ty = "oauth"
            · simp [h1, h2] at h
              exact ⟨pickTrimmed_ne_empty _ _ h, Or.inr (Or.inl (by rw [h2]))⟩
            · by_cases h3 : ty = "wellknown"
              · simp [h1, h2, h3] at h
                exact ⟨pickTrimmed_ne_empty _ _ h,
                  Or.inr (Or.inr (by rw [h3]))⟩
              · simp [h1, h2, h3] at h
        all_goals simp at h
    · simp at h

/-- C7 witness: with the live accessor empty, a store entry under the
auth-provider id beats a configured environment key. -/
theorem token_cascade_order_witness :
    resolveJudgeToken none
      (some (Json.obj [("open-machina-judge",
        Json.obj [("type", Json.str "api"), ("key", Json.str "store-token")])]))
      (some "env-token") "open-machina-judge" "openai" = some "store-token" ∧
    ("store-token" : String) ≠ "env-token" := by
  constructor
  · exact (token_cascade_order none
      (some (Json.obj [("open-machina-judge",
        Json.obj [("type", Json.str "api"), ("key", Json.str "store-token")])]))
      (some "env-token") "open-machina-judge" "openai").2.1 (by decide) "store-token"
      (by decide)
  · decide

/-- C4: when the first judge response fails validation, exactly the
original prompt and the single repair prompt are sent; a valid second
response is returned, and an invalid one fails with
`ORCHESTRATION_DECISION_INVALID`. -/
theorem decide_single_repair (inputJson : String) (resp : Nat → String)
    (h : parseDecision (resp 0) = none) :
    (decideOrchestration inputJson resp).snd =
      [createDecisionPrompt inputJson, repairPromptText] ∧
    (decideOrchestration inputJson resp).snd.length = 2 ∧
    (∀ d, parseDecision (resp 1) = some d →
      (decideOrchestration inputJson resp).fst = Except.ok d) ∧
    (parseDecision (resp 1) = none →
      (decideOrchestration inputJson resp).fst = Except.error decisionInvalidMsg) := by
  refine ⟨?_, ?_, fun d h2 => ?_, fun h2 => ?_⟩ <;>
    simp [decideOrchestration, h] <;>
    cases h3 : parseDecision (resp 1) <;> simp_all

/-- C4 witness: a first response `"not-json"` followed by a valid JSON
response gives exactly two judge calls and the second decision. -/
theorem decide_single_repair_witness :
    parseDecision
        ((fun n => if n = 0 then "not-json"
          else "\x7b\"action\":\"abort\",\"confidence\":0.9,\"reason\":\"critical incident\",\"priority\":\"critical\"\x7d") 0)
      = none ∧
    (decideOrchestration "snapshot"
      (fun n => if n = 0 then "not-json"
        else "\x7b\"action\":\"abort\",\"confidence\":0.9,\"reason\":\"critical incident\",\"priority\":\"critical\"\x7d")).snd.length
      = 2 ∧
    (decideOrchestration "snapshot"
      (fun n => if n = 0 then "not-json"
        else "\x7b\"action\":\"abort\",\"confidence\":0.9,\"reason\":\"critical incident\",\"priority\":\"critical\"\x7d")).fst
      = Except.ok ⟨OrchestrationAction.abort, mkRat 9 10, "critical incident",
          MachinaPriority.critical, none, none⟩ := by
  have h0 : parseDecision
      ((fun n => if n = 0 then "not-json"
        else "\x7b\"action\":\"abort\",\"confidence\":0.9,\"reason\":\"critical incident\",\"priority\":\"critical\"\x7d") 0)
      = none := by decide
  have h := decide_single_repair "snapshot"
    (fun n => if n = 0 then "not-json"
      else "\x7b\"action\":\"abort\",\"confidence\":0.9,\"reason\":\"critical incident\",\"priority\":\"critical\"\x7d")
    h0
  exact ⟨h0, h.2.1,
    h.2.2.1 ⟨OrchestrationAction.abort, mkRat 9 10, "critical incident",
      MachinaPriority.critical, none, none⟩ (by decide)⟩

theorem applyDefer_moves_head_to_front_witness :
    (applyDefer ⟨[], []⟩
      [⟨"w1", "daily indexing", WorkStatus.running, MachinaPriority.medium, "t0"⟩]
      (some "2099-01-01T00:00:00.000Z")).deferred.head? =
      some ⟨"w1", "daily indexing (until 2099-01-01T00:00:00.000Z)", WorkStatus.blocked,
        MachinaPriority.medium, "t0"⟩ ∧
    (applyDefer ⟨[], []⟩
      [⟨"w1", "daily indexing", WorkStatus.running, MachinaPriority.medium, "t0"⟩]
      (some "2099-01-01T00:00:00.000Z")).deferred.length = 1 := by
  have h := applyDefer_moves_head_to_front ⟨[], []⟩
    [⟨"w1", "daily indexing", WorkStatus.running, MachinaPriority.medium, "t0"⟩]
    ⟨"w1", "daily indexing", WorkStatus.running, MachinaPriority.medium, "t0"⟩ []
    (some "2099-01-01T00:00:00.000Z") rfl
  constructor
  · rw [h.2.1]
    decide
  · rw [h.1]
    decide

/-- C10: when no judge runtime resolves, the chat hook is a silent
no-op — parts, queues and tracker untouched, no judge call, no error —
while the `open_machina_decide` tool fails with a message carrying
`AUTONOMY_JUDGE_UNAVAILABLE`. -/
theorem no_runtime_hook_noop_tool_errors (env : MachinaEnv) (catalog : CatalogResponse)
    (live storePayload : Option Json) (host : HostSession) (hint : Option ModelRef)
    (sessionID : String) (work : List ActiveWorkItem) (runtime : SessionRuntimeState)
    (parts : List MessagePart) (inputJson : String) (resp : Nat → String)
    (nowIso : String) (nowMs : Nat)
    (h : resolveJudgeRuntime env catalog live storePayload hint =
      ResolveOutcome.noRuntime) :
    chatMessageHook env catalog live storePayload host hint sessionID work runtime parts
        inputJson resp nowIso nowMs = ⟨parts, runtime, work, 0, [], [], none⟩ ∧
    openMachinaDecide env catalog live storePayload hint inputJson resp =
      Except.error unavailableMsg ∧
    jsIncludes unavailableMsg "AUTONOMY_JUDGE_UNAVAILABLE" = true := by
  refine ⟨?_, ?_, by decide⟩
  · simp only [chatMessageHook, h]
    split_ifs <;> rfl
  · simp only [openMachinaDecide, h]

theorem no_runtime_hook_noop_tool_errors_witness :
    chatMessageHook ⟨none, none, none, none, none, none, none, none⟩
        CatalogResponse.noCapability none none ⟨true, true, true⟩ none "s-1"
        [⟨"toolA:1", "daily indexing", WorkStatus.running, MachinaPriority.medium, "t0"⟩]
        ⟨[], []⟩ [⟨"text", some "do something else"⟩] "snap" (fun _ => "x") "t1" 0 =
      ⟨[⟨"text", some "do something else"⟩], ⟨[], []⟩,
        [⟨"toolA:1", "daily indexing", WorkStatus.running, MachinaPriority.medium, "t0"⟩],
        0, [], [], none⟩ ∧
    openMachinaDecide ⟨none, none, none, none, none, none, none, none⟩
        CatalogResponse.noCapability none none none "snap" (fun _ => "x") =
      Except.error unavailableMsg :=
  ⟨(no_runtime_hook_noop_tool_errors ⟨none, none, none, none, none, none, none, none⟩
      CatalogResponse.noCapability none none ⟨true, true, true⟩ none "s-1"
      [⟨"toolA:1", "daily indexing", WorkStatus.running, MachinaPriority.medium, "t0"⟩]
      ⟨[], []⟩ [⟨"text", some "do something else"⟩] "snap" (fun _ => "x") "t1" 0
      (by decide)).1,
   (no_runtime_hook_noop_tool_errors ⟨none, none, none, none, none, none, none, none⟩
      CatalogResponse.noCapability none none ⟨true, true, true⟩ none "s-1"
      [⟨"toolA:1", "daily indexing", WorkStatus.running, MachinaPriority.medium, "t0"⟩]
      ⟨[], []⟩ [⟨"text", some "do something else"⟩] "snap" (fun _ => "x") "t1" 0
      (by decide)).2.1⟩

/-- C9: applying a defer decision leaves the tracker's work list
untouched — the deferred queue receives a blocked, relabeled copy of the
head running item while the original keeps its status and title. -/
theorem defer_preserves_tracker (env : MachinaEnv) (catalog : CatalogResponse)
    (live storePayload : Option Json) (host : HostSession) (hint : Option ModelRef)
    (sessionID : String) (work : List ActiveWorkItem) (runtime : SessionRuntimeState)
    (parts : List MessagePart) (inputJson : String) (resp : Nat → String)
    (nowIso : String) (nowMs : Nat) (top : ActiveWorkItem) (rest : List ActiveWorkItem)
    (rt : JudgeRuntime) (d : OrchestrationDecision) (prompts : List String)
    (hactive : work.filter (fun item => item.status = WorkStatus.running) = top :: rest)
    (hprompt : (promptOfParts parts).data.isEmpty = false)
    (hmarker : jsIncludes (promptOfParts parts) CONTROL_MARKER = false)
    (hres : resolveJudgeRuntime env catalog live storePayload hint = ResolveOutcome.ok rt)
    (hdec : decideOrchestration inputJson resp = (Except.ok d, prompts))
    (hact : d.action = OrchestrationAction.defer) :
    (chatMessageHook env catalog live storePayload host hint sessionID work runtime parts
        inputJson resp nowIso nowMs).work = work ∧
    top ∈ work ∧ top.status = WorkStatus.running ∧
    (chatMessageHook env catalog live storePayload host hint sessionID work runtime parts
        inputJson resp nowIso nowMs).runtime.deferred.head? =
      some ⟨top.id, deferTitle top.title d.deferUntil, WorkStatus.blocked, top.priority,
        top.startedAt⟩ ∧
    (chatMessageHook env catalog live storePayload host hint sessionID work runtime parts
        inputJson resp nowIso nowMs).runtime.parallel = runtime.parallel := by
  have hmem : top ∈ work.filter (fun item => item.status = WorkStatus.running) := by
    rw [hactive]
    exact List.mem_cons_self _ _
  have hmem2 := List.mem_filter.mp hmem
  have hstat : top.status = WorkStatus.running := by simpa using hmem2.2
  have hhook : chatMessageHook env catalog live storePayload host hint sessionID work
      runtime parts inputJson resp nowIso nowMs =
      ⟨spliceParts parts
          (decisionText d (applyDefer runtime (top :: rest) d.deferUntil)),
        applyDefer runtime (top :: rest) d.deferUntil, work, 0, [], prompts, none⟩ := by
    simp only [chatMessageHook, hactive, List.isEmpty_cons, Bool.false_eq_true, if_false,
      hprompt, hmarker, hres, hdec]
    simp [applyDecision, hact]
  refine ⟨by rw [hhook], hmem2.1, hstat, ?_, ?_⟩
  · rw [hhook]
    simp [applyDefer, List.take_succ_cons]
  · rw [hhook]
    simp [applyDefer]

theorem defer_preserves_tracker_witness :
    (chatMessageHook ⟨some "openai", some "gpt-judge", none, none, none, none, none, some "k"⟩
        CatalogResponse.noCapability none none ⟨true, false, false⟩ none "s-2"
        [⟨"toolA:1", "daily indexing", WorkStatus.running, MachinaPriority.medium, "t0"⟩]
        ⟨[], []⟩ [⟨"text", some "defer this task"⟩] "snap"
        (fun _ => "\x7b\"action\":\"defer\",\"confidence\":0.9,\"reason\":\"defer active work\",\"priority\":\"high\",\"deferUntil\":\"2099-01-01T00:00:00.000Z\"\x7d")
        "t1" 0).work =
      [⟨"toolA:1", "daily indexing", WorkStatus.running, MachinaPriority.medium, "t0"⟩] ∧
    (chatMessageHook ⟨some "openai", some "gpt-judge", none, none, none, none, none, some "k"⟩
        CatalogResponse.noCapability none none ⟨true, false, false⟩ none "s-2"
        [⟨"toolA:1", "daily indexing", WorkStatus.running, MachinaPriority.medium, "t0"⟩]
        ⟨[], []⟩ [⟨"text", some "defer this task"⟩] "snap"
        (fun _ => "\x7b\"action\":\"defer\",\"confidence\":0.9,\"reason\":\"defer active work\",\"priority\":\"high\",\"deferUntil\":\"2099-01-01T00:00:00.000Z\"\x7d")
        "t1" 0).runtime.deferred.head? =
      some ⟨"toolA:1", "daily indexing (until 2099-01-01T00:00:00.000Z)",
        WorkStatus.blocked, MachinaPriority.medium, "t0"⟩ := by
  have h := defer_preserves_tracker
    ⟨some "openai", some "gpt-judge", none, none, none, none, none, some "k"⟩
    CatalogResponse.noCapability none none ⟨true, false, false⟩ none "s-2"
    [⟨"toolA:1", "daily indexing", WorkStatus.running, MachinaPriority.medium, "t0"⟩]
    ⟨[], []⟩ [⟨"text", some "defer this task"⟩] "snap"
    (fun _ => "\x7b\"action\":\"defer\",\"confidence\":0.9,\"reason\":\"defer active work\",\"priority\":\"high\",\"deferUntil\":\"2099-01-01T00:00:00.000Z\"\x7d")
    "t1" 0
    ⟨"toolA:1", "daily indexing", WorkStatus.running, MachinaPriority.medium, "t0"⟩ []
    ⟨"openai", "gpt-judge", "https://api.openai.com/v1/chat/completions", "k"⟩
    ⟨OrchestrationAction.defer, mkRat 9 10, "defer active work", MachinaPriority.high,
      some "2099-01-01T00:00:00.000Z", none⟩
    [createDecisionPrompt "snap"]
    (by decide) (by decide) (by decide) (by decide) (by rfl) rfl
  refine ⟨h.1, ?_⟩
  rw [h.2.2.2.1]
  decide
